import Mathlib

/-!
Shallow embedding of `src/rfid_reader.py` (an RFID access-control endpoint).

Side effects are modelled as a trace of events: GPIO pin writes, wall-clock
sleeps, HTTP POST requests issued by the main control path, fire-and-forget
log-record spawns, and local diagnostic prints.  The remote authority is
modelled by an environment fixing the outcome of the verify and activate
HTTP calls; a response body is `none` when it does not parse as JSON.

Durations are rationals in seconds, exactly as in the source
(`UNLOCK_DURATION_SECONDS = 5`, denial-flash interval `0.15`).
-/

namespace RfidReader

/-- Constant `BACKEND_BASE_URL` from the configuration block of `rfid_reader.py`. -/
def BACKEND_BASE_URL : String :=
  "https://smartaccesscontrol-backend-production.up.railway.app/api"

/-- Constant `VERIFY_RFID_URL` from the configuration block. -/
def VERIFY_RFID_URL : String := BACKEND_BASE_URL ++ "/rfid/verify"

/-- Constant `ACTIVATE_RFID_URL` from the configuration block. -/
def ACTIVATE_RFID_URL : String := BACKEND_BASE_URL ++ "/rfid/activate"

/-- Constant `LOG_GRANTED_URL` from the configuration block. -/
def LOG_GRANTED_URL : String := BACKEND_BASE_URL ++ "/access-logs/granted"

/-- Constant `LOG_DENIED_URL` from the configuration block. -/
def LOG_DENIED_URL : String := BACKEND_BASE_URL ++ "/access-logs/denied"

/-- Constant `UNLOCK_DURATION_SECONDS = 5` from the configuration block. -/
def UNLOCK_DURATION_SECONDS : ℚ := 5

/-- GPIO pin levels: `GPIO.HIGH` / `GPIO.LOW`. -/
inductive PinState where
  | high
  | low
deriving DecidableEq, Repr

/-- Payload of an access-log POST: `{rfid_uid, guest_id}` for granted,
`{rfid_uid}` for denied. -/
inductive LogPayload where
  | granted (rfid_uid : String) (guest_id : Option Int)
  | denied (rfid_uid : String)
deriving DecidableEq, Repr

/-- One observable step of the program. -/
inductive Event where
  /-- a line of local diagnostic output -/
  | print (msg : String)
  /-- Write `GPIO.output(RELAY_PIN, s)` -/
  | setOutput (s : PinState)
  /-- Sleep `time.sleep(d)`, `d` in seconds -/
  | sleep (d : ℚ)
  /-- a synchronous HTTP POST issued on the main path (verify / activate) -/
  | httpPost (url : String)
  /-- Spawn of `log_access_attempt`, i.e. its fire-and-forget log thread -/
  | logRecord (endpoint : String) (payload : LogPayload)
  /-- Call of `GPIO.cleanup()` -/
  | cleanup
deriving DecidableEq, Repr

/-- The guest object of a verify response body (`data.guest`); each field may
be absent. -/
structure GuestInfo where
  id : Option Int
  name : Option String
deriving DecidableEq, Repr

/-- Parsed body of a `/rfid/verify` response, as accessed by the code:
`success`, optional `message`, `data.rfid.status` (absent ↦ `none`),
`data.guest` (`none` for an absent, null or empty guest dict, which are all
falsy in Python), and whether `data.room` is a non-empty dict (it is only
printed). -/
structure VerifyBody where
  success : Bool
  message : Option String
  rfidStatus : Option String
  guest : Option GuestInfo
  roomPresent : Bool
deriving DecidableEq, Repr

/-- Parsed body of a `/rfid/activate` response: `success`, optional
`message`, and `data.status` (absent ↦ `none`). -/
structure ActivateBody where
  success : Bool
  message : Option String
  dataStatus : Option String
deriving DecidableEq, Repr

/-- Outcome of one HTTP exchange: a transport-level failure
(`requests.exceptions.RequestException`: unreachable, timeout, …) or a
response with a status code and a body, the body being `none` when it does
not parse as JSON. -/
inductive HttpResult (β : Type) where
  | transportError
  | ok (status : Nat) (body : Option β)
deriving DecidableEq, Repr

/-- Environment of one `validate_rfid` call: what the backend would answer
to the verify and (if issued) activate requests. -/
structure Env where
  verifyResp : HttpResult VerifyBody
  activateResp : HttpResult ActivateBody
deriving DecidableEq, Repr

/-- Function `unlock_door()`: relay HIGH, sleep `UNLOCK_DURATION_SECONDS`, relay LOW. -/
def unlock_door : List Event :=
  [Event.print "[INFO] Unlocking door...",
   Event.setOutput PinState.high,
   Event.sleep UNLOCK_DURATION_SECONDS,
   Event.setOutput PinState.low,
   Event.print "[INFO] Door locked."]

/-- Function `flash_relay(flash_count=6, interval=0.15)`: toggles the relay
HIGH/LOW `flash_count` times with `interval` sleeps, ending LOW. -/
def flash_relay (flash_count : Nat := 6) (interval : ℚ := 15/100) : List Event :=
  Event.print "[WARN] Flashing relay for access denial." ::
  (List.replicate flash_count
    [Event.setOutput PinState.high, Event.sleep interval,
     Event.setOutput PinState.low, Event.sleep interval]).flatten ++
  [Event.print "[WARN] Access denial flash complete."]

/-- Function `log_access_attempt(endpoint, payload, success_message)`: spawns a
daemon thread that POSTs the payload; the main path only observes the
spawn (fire and forget). -/
def log_access_attempt (endpoint : String) (payload : LogPayload)
    (success_message : String) : List Event :=
  [Event.logRecord endpoint payload]

/-- Function `deny_access(rfid_uid, reason)`: prints the reason, flashes the relay,
spawns the denied-log record. -/
def deny_access (rfid_uid : String) (reason : String := "Unknown reason") :
    List Event :=
  Event.print ("[DENIED] ACCESS DENIED: " ++ reason) ::
  flash_relay ++
  log_access_attempt LOG_DENIED_URL (LogPayload.denied rfid_uid)
    "Access denied logged successfully."

/-- Function `activate_rfid_if_assigned(rfid_uid, rfid_status)`: returns the status
unchanged unless it is the string `assigned`; otherwise POSTs to
`ACTIVATE_RFID_URL` and returns the updated status, or `none` on any
failure (transport error, non-200 status, unparseable body — a JSON decode
error from `response.json()` is a `RequestException` and is caught by the
same handler — or payload `success` false).  The second component is the
trace of events produced. -/
def activate_rfid_if_assigned (resp : HttpResult ActivateBody)
    (rfid_uid : String) (rfid_status : Option String) :
    Option String × List Event :=
  if rfid_status ≠ some "assigned" then (rfid_status, [])
  else
    let pre := [Event.print "[INFO] RFID status is assigned. Attempting to activate...",
                Event.httpPost ACTIVATE_RFID_URL]
    match resp with
    | HttpResult.transportError =>
        (none, pre ++ [Event.print "[ERROR] Cannot connect to backend to activate RFID"])
    | HttpResult.ok status body =>
        if status = 200 then
          match body with
          | some data =>
              if data.success then
                (some (data.dataStatus.getD "unknown"),
                 pre ++ [Event.print "[INFO] RFID successfully activated"])
              else
                (none, pre ++ [Event.print "[ERROR] Could not activate RFID"])
          | none =>
              (none, pre ++ [Event.print "[ERROR] Cannot connect to backend to activate RFID"])
        else
          (none, pre ++ [Event.print "[ERROR] Unexpected HTTP activating RFID"])

/-- Function `validate_rfid(rfid_uid)`: the validation engine.  POSTs to
`VERIFY_RFID_URL`; on transport failure returns with diagnostics only; on
HTTP 200 parses the body (parse failure ↦ deny), denies on `success`
false, otherwise prints guest/room details, activates the RFID if still
assigned (activation failure ↦ deny), unlocks the door and spawns the
granted-log record; on 403/404 denies with the backend message if
parseable; on any other status denies citing the status code. -/
def validate_rfid (env : Env) (rfid_uid : String) : List Event :=
  Event.print "[INFO] Sending verification request" ::
  Event.httpPost VERIFY_RFID_URL ::
  match env.verifyResp with
  | HttpResult.transportError =>
      [Event.print "[ERROR] Cannot connect to backend"]
  | HttpResult.ok status body =>
      if status = 200 then
        match body with
        | none =>
            Event.print "[ERROR] JSON parse error" ::
            deny_access rfid_uid "Backend JSON parse error."
        | some data =>
            Event.print "[DEBUG] Full backend response" ::
            if !data.success then
              deny_access rfid_uid (data.message.getD "Unknown backend error.")
            else
              Event.print "[INFO] RFID Verified" ::
              Event.print (if data.guest.isSome then "[INFO] Guest Info"
                           else "[WARN] No guest info provided by backend.") ::
              Event.print (if data.roomPresent then "[INFO] Room Info"
                           else "[WARN] No room info provided by backend.") ::
              (let ar := activate_rfid_if_assigned env.activateResp rfid_uid data.rfidStatus
               ar.2 ++
               match ar.1 with
               | none =>
                   deny_access rfid_uid ("RFID " ++ rfid_uid ++ " could not be activated.")
               | some _ =>
                   unlock_door ++
                   log_access_attempt LOG_GRANTED_URL
                     (LogPayload.granted rfid_uid (data.guest.bind GuestInfo.id))
                     "Access granted logged successfully.")
      else if status = 403 ∨ status = 404 then
        deny_access rfid_uid
          (match body with
           | some data => data.message.getD "No detail provided"
           | none => "No detail provided")
      else
        Event.print "[ERROR] Unexpected backend response" ::
        deny_access rfid_uid ("Unexpected status " ++ toString status)

/-- Python `str.strip()`: removes leading and trailing whitespace. -/
def pyStrip (line : String) : String :=
  String.mk
    (((line.data.dropWhile Char.isWhitespace).reverse.dropWhile
        Char.isWhitespace).reverse)

/-- One iteration of the entry loop of `main()`: strip the input line
(`input().strip()`); an empty result is skipped entirely, otherwise the
scan is announced and validated. -/
def process_line (env : Env) (line : String) : List Event :=
  let rfid_uid := pyStrip line
  if rfid_uid = "" then []
  else Event.print "[SCAN] RFID Scanned" :: validate_rfid env rfid_uid

/-- Reason the entry loop of `main()` stopped: `KeyboardInterrupt`
(Ctrl+C) or any other unexpected exception escaping the loop. -/
inductive Cause where
  | interrupt
  | unexpectedError
deriving DecidableEq, Repr

/-- Function `main()`: banner, one `process_line` per input line, then the
handler of the cause that ended the loop; the `finally` block calls
`sys.exit(0)`. -/
def main_events (inputs : List (String × Env)) (c : Cause) : List Event :=
  Event.print "[INFO] RFID Reader is active. Waiting for scans (Ctrl+C to exit)." ::
  (inputs.map (fun p => process_line p.2 p.1)).flatten ++
  [match c with
   | Cause.interrupt => Event.print "[INFO] Exiting RFID reader gracefully..."
   | Cause.unexpectedError => Event.print "[ERROR] Unexpected error"]

/-- Whole program `with GPIOHandler(): main()`: setup drives the relay pin LOW
(`initial=GPIO.LOW`), `main` runs, and the `SystemExit(0)` raised by its
`finally` block passes through `GPIOHandler.__exit__`, which runs
`GPIO.cleanup()` before the process terminates with exit status 0.  The
second component is the process exit status. -/
def program_run (inputs : List (String × Env)) (c : Cause) :
    List Event × Nat :=
  (Event.setOutput PinState.low ::
   main_events inputs c ++
   [Event.cleanup,
    Event.print "[ERROR] Exiting due to exception: SystemExit - 0"],
   0)

/-- Relay pin level after a trace, given the level before it. -/
def pinAfter : PinState → List Event → PinState
  | s, [] => s
  | _, Event.setOutput p :: rest => pinAfter p rest
  | s, Event.print _ :: rest => pinAfter s rest
  | s, Event.sleep _ :: rest => pinAfter s rest
  | s, Event.httpPost _ :: rest => pinAfter s rest
  | s, Event.logRecord _ _ :: rest => pinAfter s rest
  | s, Event.cleanup :: rest => pinAfter s rest

/-- Total time (seconds) the relay pin spends HIGH during a trace, given
the level before it. -/
def highTimeFrom : PinState → List Event → ℚ
  | _, [] => 0
  | _, Event.setOutput p :: rest => highTimeFrom p rest
  | s, Event.sleep t :: rest =>
      (if s = PinState.high then t else 0) + highTimeFrom s rest
  | s, Event.print _ :: rest => highTimeFrom s rest
  | s, Event.httpPost _ :: rest => highTimeFrom s rest
  | s, Event.logRecord _ _ :: rest => highTimeFrom s rest
  | s, Event.cleanup :: rest => highTimeFrom s rest

/-- Total HIGH time of a trace starting from the resting (LOW) state. -/
def highTime (tr : List Event) : ℚ := highTimeFrom PinState.low tr

/-- Holds (as a Bool) iff at some point of the trace the pin is HIGH during a sleep
of duration `d`, given the pin level before the trace. -/
def heldHighFor (d : ℚ) : PinState → List Event → Bool
  | _, [] => false
  | _, Event.setOutput p :: rest => heldHighFor d p rest
  | s, Event.sleep t :: rest =>
      decide (s = PinState.high ∧ t = d) || heldHighFor d s rest
  | s, Event.print _ :: rest => heldHighFor d s rest
  | s, Event.httpPost _ :: rest => heldHighFor d s rest
  | s, Event.logRecord _ _ :: rest => heldHighFor d s rest
  | s, Event.cleanup :: rest => heldHighFor d s rest

/-- The door is engaged in a trace iff the pin is HIGH during a sleep of
the configured unlock duration (5 s); the denial-flash sleeps last 0.15 s,
so only `unlock_door` engages the door. -/
def door_engaged (tr : List Event) : Bool :=
  heldHighFor UNLOCK_DURATION_SECONDS PinState.low tr

/-- Holds (as a Bool) iff the event writes the relay pin. -/
def isActuation : Event → Bool
  | Event.setOutput _ => true
  | _ => false

/-- Holds (as a Bool) iff the event neither actuates the pin, nor sleeps,
nor spawns a log record: a diagnostic print or a synchronous HTTP POST. -/
def isInert : Event → Bool
  | Event.print _ => true
  | Event.httpPost _ => true
  | _ => false

/-- The activation-failure cases named by the spec: transport error,
non-200 HTTP status, unparseable body, or payload `success` false. -/
def activationFailed : HttpResult ActivateBody → Bool
  | HttpResult.transportError => true
  | HttpResult.ok status body =>
      decide (status ≠ 200) ||
      (match body with
       | none => true
       | some b => !b.success)

/-- The diagnostic prefix `validate_rfid` emits on a parseable HTTP 200
response with `success` true, before the activation step: the verify POST
and the guest/room detail prints. -/
def verified_prints (body : VerifyBody) : List Event :=
  [Event.print "[INFO] Sending verification request",
   Event.httpPost VERIFY_RFID_URL,
   Event.print "[DEBUG] Full backend response",
   Event.print "[INFO] RFID Verified",
   Event.print (if body.guest.isSome then "[INFO] Guest Info"
                else "[WARN] No guest info provided by backend."),
   Event.print (if body.roomPresent then "[INFO] Room Info"
                else "[WARN] No room info provided by backend.")]

/-- Denial reason used on a 403/404 verify response: the parsed body
message when present, else the no-detail default
(`response.json().get("message", "No detail provided")`, with the parse
failure handler supplying the same default). -/
def verify_deny_reason (body : Option VerifyBody) : String :=
  match body with
  | some data => data.message.getD "No detail provided"
  | none => "No detail provided"

/-- Example verify body: explicit backend refusal with a message. -/
def bodyRefused : VerifyBody := ⟨false, some "expired", none, none, false⟩

/-- Example verify body: success, active credential, guest id 7. -/
def bodyActive : VerifyBody := ⟨true, none, some "active", some ⟨some 7, some "Jo"⟩, true⟩

/-- Example verify body: success, credential still assigned. -/
def bodyAssigned : VerifyBody := ⟨true, none, some "assigned", none, false⟩

/-- Example verify body: success, rfid status field absent. -/
def bodyNoStatus : VerifyBody := ⟨true, none, none, none, false⟩

/-- Example activate body: success, new status active. -/
def abActive : ActivateBody := ⟨true, none, some "active"⟩

/-- Example activate body: success, status field absent. -/
def abNoStatus : ActivateBody := ⟨true, none, none⟩

end RfidReader

namespace RfidReader

/-- Splitting a trace: the pin level after `p ++ q` is the level after `q`
started from the level after `p`. -/
theorem pinAfter_append (p q : List Event) (s : PinState) :
    pinAfter s (p ++ q) = pinAfter (pinAfter s p) q := by
  induction p generalizing s with
  | nil => rfl
  | cons e rest ih => cases e <;> simp [pinAfter, ih]

/-- Splitting a trace: HIGH time over `p ++ q` is the sum of the two
parts, the second started from the pin level `p` leaves. -/
theorem highTimeFrom_append (p q : List Event) (s : PinState) :
    highTimeFrom s (p ++ q) = highTimeFrom s p + highTimeFrom (pinAfter s p) q := by
  induction p generalizing s with
  | nil => simp [highTimeFrom, pinAfter]
  | cons e rest ih => cases e <;> simp [highTimeFrom, pinAfter, ih] <;> ring

/-- Splitting a trace: the pin is HIGH during a `d`-sleep of `p ++ q` iff
it is in `p`, or in `q` started from the level `p` leaves. -/
theorem heldHighFor_append (d : ℚ) (p q : List Event) (s : PinState) :
    heldHighFor d s (p ++ q) =
      (heldHighFor d s p || heldHighFor d (pinAfter s p) q) := by
  induction p generalizing s with
  | nil => simp [heldHighFor, pinAfter]
  | cons e rest ih => cases e <;> simp [heldHighFor, pinAfter, ih, Bool.or_assoc]

/-- The door-unlock block leaves the pin LOW. -/
theorem pinAfter_unlock (s : PinState) : pinAfter s unlock_door = PinState.low := by
  cases s <;> decide

/-- The door-unlock block holds the pin HIGH for exactly the unlock
duration. -/
theorem highTimeFrom_unlock (s : PinState) :
    highTimeFrom s unlock_door = UNLOCK_DURATION_SECONDS := by
  cases s <;> norm_num [unlock_door, highTimeFrom]

/-- The door-unlock block engages the door. -/
theorem heldHighFor_unlock (s : PinState) :
    heldHighFor UNLOCK_DURATION_SECONDS s unlock_door = true := by
  cases s <;> norm_num [unlock_door, heldHighFor]

/-- The default denial flash leaves the pin LOW. -/
theorem pinAfter_flash (s : PinState) : pinAfter s flash_relay = PinState.low := by
  cases s <;> decide

/-- Distinct pin levels. -/
@[simp] theorem pin_low_eq_high : (PinState.low = PinState.high) = False := by
  simp

/-- The default denial flash holds the pin HIGH for 0.9 s in total. -/
theorem highTimeFrom_flash (s : PinState) : highTimeFrom s flash_relay = 9/10 := by
  cases s <;> simp [flash_relay, highTimeFrom, List.replicate] <;> norm_num

/-- The default denial flash never holds the pin HIGH for the unlock
duration (its sleeps last 0.15 s). -/
theorem heldHighFor_flash (s : PinState) :
    heldHighFor UNLOCK_DURATION_SECONDS s flash_relay = false := by
  cases s <;> simp [flash_relay, heldHighFor, List.replicate] <;>
    norm_num [UNLOCK_DURATION_SECONDS]

/-- A denial leaves the pin LOW. -/
theorem pinAfter_deny (s : PinState) (uid reason : String) :
    pinAfter s (deny_access uid reason) = PinState.low := by
  simp [deny_access, log_access_attempt, pinAfter, pinAfter_append, pinAfter_flash]

/-- A denial holds the pin HIGH for 0.9 s in total. -/
theorem highTimeFrom_deny (s : PinState) (uid reason : String) :
    highTimeFrom s (deny_access uid reason) = 9/10 := by
  simp [deny_access, log_access_attempt, highTimeFrom, highTimeFrom_append,
    highTimeFrom_flash, pinAfter, pinAfter_flash]
  norm_num


/-- A denial never engages the door. -/
theorem heldHighFor_deny (s : PinState) (uid reason : String) :
    heldHighFor UNLOCK_DURATION_SECONDS s (deny_access uid reason) = false := by
  simp [deny_access, log_access_attempt, heldHighFor, heldHighFor_append,
    heldHighFor_flash, pinAfter, pinAfter_flash]
  norm_num [UNLOCK_DURATION_SECONDS]

end RfidReader

namespace RfidReader

/-- The activation helper never touches the relay pin or the clock: its
trace is diagnostic prints and at most one HTTP POST. -/
theorem activate_inert (resp : HttpResult ActivateBody) (uid : String)
    (st : Option String) (s : PinState) :
    pinAfter s (activate_rfid_if_assigned resp uid st).2 = s ∧
    highTimeFrom s (activate_rfid_if_assigned resp uid st).2 = 0 ∧
    heldHighFor UNLOCK_DURATION_SECONDS s (activate_rfid_if_assigned resp uid st).2 = false := by
  by_cases h : st ≠ some "assigned"
  · simp [activate_rfid_if_assigned, h, pinAfter, highTimeFrom, heldHighFor]
  · cases resp with
    | transportError =>
        simp [activate_rfid_if_assigned, h, pinAfter, highTimeFrom, heldHighFor]
    | ok status body =>
        by_cases h2 : status = 200
        · cases body with
          | none =>
              simp [activate_rfid_if_assigned, h, h2, pinAfter, highTimeFrom, heldHighFor]
          | some d =>
              by_cases h3 : d.success <;>
                simp [activate_rfid_if_assigned, h, h2, h3, pinAfter, highTimeFrom,
                  heldHighFor]
        · simp [activate_rfid_if_assigned, h, h2, pinAfter, highTimeFrom, heldHighFor]

/-- Shape of any denial outcome: a trace that ends in `deny_access` after a
pin-inert prefix never engages the door, spawns the denied-log record, and
contains the full denial flash. -/
theorem deny_shape (pre : List Event) (uid reason : String)
    (hpin : pinAfter PinState.low pre = PinState.low)
    (hheld : heldHighFor UNLOCK_DURATION_SECONDS PinState.low pre = false) :
    door_engaged (pre ++ deny_access uid reason) = false ∧
    Event.logRecord LOG_DENIED_URL (LogPayload.denied uid) ∈ pre ++ deny_access uid reason ∧
    flash_relay <:+: pre ++ deny_access uid reason := by
  refine ⟨?_, ?_, ?_⟩
  · simp [door_engaged, heldHighFor_append, hheld, hpin, heldHighFor_deny]
  · simp [deny_access, log_access_attempt]
  · exact ⟨pre ++ [Event.print ("[DENIED] ACCESS DENIED: " ++ reason)],
      log_access_attempt LOG_DENIED_URL (LogPayload.denied uid)
        "Access denied logged successfully.",
      by simp [deny_access]⟩

end RfidReader

namespace RfidReader

/-- An all-inert trace (prints and synchronous POSTs only) leaves the pin
level unchanged, holds the pin HIGH for no time, and spawns no log
record. -/
theorem inert_trace (q : List Event) (h : q.all isInert = true) :
    (∀ s, pinAfter s q = s) ∧
    (∀ s, highTimeFrom s q = 0) ∧
    (∀ d s, heldHighFor d s q = false) ∧
    (∀ ep pl, Event.logRecord ep pl ∉ q) := by
  induction q with
  | nil => simp [pinAfter, highTimeFrom, heldHighFor]
  | cons e rest ih =>
      simp only [List.all_cons, Bool.and_eq_true] at h
      obtain ⟨he, hrest⟩ := h
      obtain ⟨h1, h2, h3, h4⟩ := ih hrest
      cases e <;> simp [isInert, pinAfter, highTimeFrom, heldHighFor, h1, h2, h3, h4] at he ⊢

/-- The trace of the activation helper consists of prints and at most one HTTP
POST only. -/
theorem activate_trace_inert (resp : HttpResult ActivateBody) (uid : String)
    (st : Option String) :
    (activate_rfid_if_assigned resp uid st).2.all isInert = true := by
  by_cases h : st ≠ some "assigned"
  · simp [activate_rfid_if_assigned, h]
  · cases resp with
    | transportError => simp [activate_rfid_if_assigned, h, isInert]
    | ok status body =>
        by_cases h2 : status = 200
        · cases body with
          | none => simp [activate_rfid_if_assigned, h, h2, isInert]
          | some d =>
              by_cases h3 : d.success <;>
                simp [activate_rfid_if_assigned, h, h2, h3, isInert]
        · simp [activate_rfid_if_assigned, h, h2, isInert]

/-- When the activation response is one of the failure cases, the helper
returns the error sentinel `none` for a still-`assigned` credential. -/
theorem activate_fails_none (resp : HttpResult ActivateBody) (uid : String)
    (h : activationFailed resp = true) :
    (activate_rfid_if_assigned resp uid (some "assigned")).1 = none := by
  cases resp with
  | transportError => simp [activate_rfid_if_assigned]
  | ok status body =>
      simp only [activationFailed, Bool.or_eq_true, decide_eq_true_eq] at h
      by_cases h2 : status = 200
      · cases body with
        | none => simp [activate_rfid_if_assigned, h2]
        | some d =>
            have h3 : d.success = false := by
              rcases h with h | h
              · exact absurd h2 h
              · simpa using h
            simp [activate_rfid_if_assigned, h2, h3]
      · simp [activate_rfid_if_assigned, h2]

/-- The granted- and denied-log endpoints are distinct. -/
theorem granted_ne_denied : LOG_GRANTED_URL ≠ LOG_DENIED_URL := by decide

/-- The verify and activate endpoints are distinct. -/
theorem verify_ne_activate : VERIFY_RFID_URL ≠ ACTIVATE_RFID_URL := by decide

/-- A denial never issues a synchronous HTTP POST. -/
theorem httpPost_not_mem_deny (url uid reason : String) :
    Event.httpPost url ∉ deny_access uid reason := by
  simp [deny_access, flash_relay, log_access_attempt, List.replicate]

/-- A denial never spawns a granted-log record. -/
theorem grant_not_mem_deny (uid reason : String) (pl : LogPayload) :
    Event.logRecord LOG_GRANTED_URL pl ∉ deny_access uid reason := by
  simp [deny_access, flash_relay, log_access_attempt, List.replicate, granted_ne_denied]

end RfidReader

namespace RfidReader

/-- C2: for every validate(uid) call where the initial verify request fails
at the transport level, validate returns having produced no log record of
any kind, no pin write, no sleep and hence no door engagement or denial
flash — its whole trace is local diagnostic output around the verify
POST. -/
theorem C2_verify_transport_silent (env : Env) (uid : String)
    (h : env.verifyResp = HttpResult.transportError) :
    validate_rfid env uid =
      [Event.print "[INFO] Sending verification request",
       Event.httpPost VERIFY_RFID_URL,
       Event.print "[ERROR] Cannot connect to backend"] ∧
    (∀ ep pl, Event.logRecord ep pl ∉ validate_rfid env uid) ∧
    (∀ p, Event.setOutput p ∉ validate_rfid env uid) ∧
    (∀ d, Event.sleep d ∉ validate_rfid env uid) ∧
    door_engaged (validate_rfid env uid) = false := by
  have htr : validate_rfid env uid =
      [Event.print "[INFO] Sending verification request",
       Event.httpPost VERIFY_RFID_URL,
       Event.print "[ERROR] Cannot connect to backend"] := by
    simp [validate_rfid, h]
  refine ⟨htr, ?_, ?_, ?_, ?_⟩
  · intro ep pl; rw [htr]; simp
  · intro p; rw [htr]; simp
  · intro d; rw [htr]; simp
  · rw [htr]; simp [door_engaged, heldHighFor]

/-- Witness for C2 at a concrete timed-out verify call. -/
theorem C2_witness :
    validate_rfid ⟨HttpResult.transportError, HttpResult.transportError⟩ "D4" =
      [Event.print "[INFO] Sending verification request",
       Event.httpPost VERIFY_RFID_URL,
       Event.print "[ERROR] Cannot connect to backend"] :=
  (C2_verify_transport_silent ⟨HttpResult.transportError, HttpResult.transportError⟩
    "D4" rfl).1

/-- C3: for every validate(uid) call where verify returns HTTP 200 with a
parseable body whose success flag is false, the outcome is Denied: the
door is never engaged, the denial flash occurs, the denied-log record is
spawned, no granted-log record is spawned, and the denial reason is the
backend message when present, else the default unknown-backend-error
message. -/
theorem C3_success_false_denied (env : Env) (uid : String) (body : VerifyBody)
    (hv : env.verifyResp = HttpResult.ok 200 (some body))
    (hs : body.success = false) :
    validate_rfid env uid =
      [Event.print "[INFO] Sending verification request",
       Event.httpPost VERIFY_RFID_URL,
       Event.print "[DEBUG] Full backend response"] ++
      deny_access uid (body.message.getD "Unknown backend error.") ∧
    door_engaged (validate_rfid env uid) = false ∧
    Event.logRecord LOG_DENIED_URL (LogPayload.denied uid) ∈ validate_rfid env uid ∧
    flash_relay <:+: validate_rfid env uid ∧
    (∀ pl, Event.logRecord LOG_GRANTED_URL pl ∉ validate_rfid env uid) := by
  have htr : validate_rfid env uid =
      [Event.print "[INFO] Sending verification request",
       Event.httpPost VERIFY_RFID_URL,
       Event.print "[DEBUG] Full backend response"] ++
      deny_access uid (body.message.getD "Unknown backend error.") := by
    simp [validate_rfid, hv, hs]
  obtain ⟨d1, d2, d3⟩ := deny_shape
    [Event.print "[INFO] Sending verification request",
     Event.httpPost VERIFY_RFID_URL,
     Event.print "[DEBUG] Full backend response"] uid
    (body.message.getD "Unknown backend error.")
    (by simp [pinAfter]) (by simp [heldHighFor])
  refine ⟨htr, ?_, ?_, ?_, ?_⟩
  · rw [htr]; exact d1
  · rw [htr]; exact d2
  · rw [htr]; exact d3
  · intro pl
    rw [htr]
    simp [grant_not_mem_deny]

/-- Witness for C3 at a concrete refusal with message. -/
theorem C3_witness :
    door_engaged (validate_rfid ⟨HttpResult.ok 200 (some bodyRefused),
      HttpResult.transportError⟩ "B2") = false ∧
    Event.logRecord LOG_DENIED_URL (LogPayload.denied "B2") ∈
      validate_rfid ⟨HttpResult.ok 200 (some bodyRefused),
        HttpResult.transportError⟩ "B2" :=
  ⟨(C3_success_false_denied _ "B2" bodyRefused rfl rfl).2.1,
   (C3_success_false_denied _ "B2" bodyRefused rfl rfl).2.2.1⟩

end RfidReader

namespace RfidReader

/-- C6: for every validate(uid) call where verify returns HTTP 403 or 404,
the outcome is Denied with the backend message as reason when the body is
parseable (default no-detail message otherwise); and for every other
non-200 verify status the outcome is Denied with a reason citing the
numeric status code.  In both cases the denial flash occurs, the
denied-log record is spawned, and the door is never engaged. -/
theorem C6_non200_denied (env : Env) (uid : String) (status : Nat)
    (body : Option VerifyBody)
    (hv : env.verifyResp = HttpResult.ok status body) :
    (status = 403 ∨ status = 404 →
      validate_rfid env uid =
        [Event.print "[INFO] Sending verification request",
         Event.httpPost VERIFY_RFID_URL] ++
        deny_access uid (verify_deny_reason body) ∧
      door_engaged (validate_rfid env uid) = false ∧
      Event.logRecord LOG_DENIED_URL (LogPayload.denied uid) ∈ validate_rfid env uid ∧
      flash_relay <:+: validate_rfid env uid) ∧
    (status ≠ 200 → status ≠ 403 → status ≠ 404 →
      validate_rfid env uid =
        [Event.print "[INFO] Sending verification request",
         Event.httpPost VERIFY_RFID_URL,
         Event.print "[ERROR] Unexpected backend response"] ++
        deny_access uid ("Unexpected status " ++ toString status) ∧
      door_engaged (validate_rfid env uid) = false ∧
      Event.logRecord LOG_DENIED_URL (LogPayload.denied uid) ∈ validate_rfid env uid ∧
      flash_relay <:+: validate_rfid env uid) := by
  constructor
  · intro h34
    have htr : validate_rfid env uid =
        [Event.print "[INFO] Sending verification request",
         Event.httpPost VERIFY_RFID_URL] ++
        deny_access uid (verify_deny_reason body) := by
      rcases h34 with rfl | rfl <;> cases body <;>
        simp [validate_rfid, hv, verify_deny_reason]
    obtain ⟨d1, d2, d3⟩ := deny_shape
      [Event.print "[INFO] Sending verification request",
       Event.httpPost VERIFY_RFID_URL] uid (verify_deny_reason body)
      (by simp [pinAfter]) (by simp [heldHighFor])
    exact ⟨htr, by rw [htr]; exact d1, by rw [htr]; exact d2, by rw [htr]; exact d3⟩
  · intro h1 h2 h3
    have htr : validate_rfid env uid =
        [Event.print "[INFO] Sending verification request",
         Event.httpPost VERIFY_RFID_URL,
         Event.print "[ERROR] Unexpected backend response"] ++
        deny_access uid ("Unexpected status " ++ toString status) := by
      simp [validate_rfid, hv, h1, h2, h3]
    obtain ⟨d1, d2, d3⟩ := deny_shape
      [Event.print "[INFO] Sending verification request",
       Event.httpPost VERIFY_RFID_URL,
       Event.print "[ERROR] Unexpected backend response"] uid
      ("Unexpected status " ++ toString status)
      (by simp [pinAfter]) (by simp [heldHighFor])
    exact ⟨htr, by rw [htr]; exact d1, by rw [htr]; exact d2, by rw [htr]; exact d3⟩

/-- Witness for C6: a 403 refusal and a 500 backend failure, both denied. -/
theorem C6_witness :
    door_engaged (validate_rfid ⟨HttpResult.ok 403 (some bodyRefused),
      HttpResult.transportError⟩ "C3") = false ∧
    Event.logRecord LOG_DENIED_URL (LogPayload.denied "C5x") ∈
      validate_rfid ⟨HttpResult.ok 500 none, HttpResult.transportError⟩ "C5x" :=
  ⟨((C6_non200_denied ⟨HttpResult.ok 403 (some bodyRefused),
      HttpResult.transportError⟩ "C3" 403 (some bodyRefused) rfl).1
      (Or.inl rfl)).2.1,
   ((C6_non200_denied ⟨HttpResult.ok 500 none, HttpResult.transportError⟩
      "C5x" 500 none rfl).2 (by decide) (by decide) (by decide)).2.2.1⟩

end RfidReader

namespace RfidReader

/-- C7 (counterexample): at a concrete verify response, HTTP 200 with an
unparseable body, the outcome is a denial — the denied-log record is
spawned — but its reason is the denial print with the literal source
message, not the claimed string; no denial print with the claimed reason
occurs anywhere in the trace. -/
theorem C7_counterexample :
    Event.logRecord LOG_DENIED_URL (LogPayload.denied "C7") ∈
      validate_rfid ⟨HttpResult.ok 200 none, HttpResult.transportError⟩ "C7" ∧
    Event.print ("[DENIED] ACCESS DENIED: " ++ "response parse error") ∉
      validate_rfid ⟨HttpResult.ok 200 none, HttpResult.transportError⟩ "C7" ∧
    Event.print ("[DENIED] ACCESS DENIED: " ++ "Backend JSON parse error.") ∈
      validate_rfid ⟨HttpResult.ok 200 none, HttpResult.transportError⟩ "C7" := by
  refine ⟨?_, ?_, ?_⟩ <;>
    simp [validate_rfid, deny_access, flash_relay, log_access_attempt,
      List.replicate]

/-- C7 (amended): for every validate(uid) call where verify returns HTTP
200 but the response body cannot be parsed as JSON, the outcome is a
denial — denial flash, denied-log record, no engagement — with the
diagnostic reason being the backend-JSON-parse-error message. -/
theorem C7_parse_error_denied (env : Env) (uid : String)
    (hv : env.verifyResp = HttpResult.ok 200 none) :
    validate_rfid env uid =
      [Event.print "[INFO] Sending verification request",
       Event.httpPost VERIFY_RFID_URL,
       Event.print "[ERROR] JSON parse error"] ++
      deny_access uid "Backend JSON parse error." ∧
    door_engaged (validate_rfid env uid) = false ∧
    Event.logRecord LOG_DENIED_URL (LogPayload.denied uid) ∈ validate_rfid env uid ∧
    flash_relay <:+: validate_rfid env uid := by
  have htr : validate_rfid env uid =
      [Event.print "[INFO] Sending verification request",
       Event.httpPost VERIFY_RFID_URL,
       Event.print "[ERROR] JSON parse error"] ++
      deny_access uid "Backend JSON parse error." := by
    simp [validate_rfid, hv]
  obtain ⟨d1, d2, d3⟩ := deny_shape
    [Event.print "[INFO] Sending verification request",
     Event.httpPost VERIFY_RFID_URL,
     Event.print "[ERROR] JSON parse error"] uid "Backend JSON parse error."
    (by simp [pinAfter]) (by simp [heldHighFor])
  exact ⟨htr, by rw [htr]; exact d1, by rw [htr]; exact d2, by rw [htr]; exact d3⟩

/-- Witness for C7 (amended) at a concrete unparseable 200 response. -/
theorem C7_witness :
    door_engaged (validate_rfid ⟨HttpResult.ok 200 none,
      HttpResult.transportError⟩ "C7w") = false ∧
    Event.logRecord LOG_DENIED_URL (LogPayload.denied "C7w") ∈
      validate_rfid ⟨HttpResult.ok 200 none, HttpResult.transportError⟩ "C7w" :=
  ⟨(C7_parse_error_denied _ "C7w" rfl).2.1,
   (C7_parse_error_denied _ "C7w" rfl).2.2.1⟩

/-- C8: the process exits with status 0 both on an explicit interrupt and
on an unrecoverable error escaping the entry loop (`sys.exit(0)` in the
`finally` block), and on every such exit path `GPIO.cleanup` runs before
the process terminates: the trace ends with the cleanup followed only by
the final `SystemExit` diagnostic of `GPIOHandler.__exit__`. -/
theorem C8_exit_status_cleanup (inputs : List (String × Env)) (c : Cause) :
    (program_run inputs c).2 = 0 ∧
    Event.cleanup ∈ (program_run inputs c).1 ∧
    (program_run inputs c).1 =
      (Event.setOutput PinState.low :: main_events inputs c) ++
      [Event.cleanup,
       Event.print "[ERROR] Exiting due to exception: SystemExit - 0"] := by
  refine ⟨rfl, ?_, by simp [program_run]⟩
  simp [program_run]

/-- C9: for every input line that is empty or whitespace-only after
stripping, the entry loop skips it entirely: no validation, no network
request, no actuation, no log record — the iteration produces no event at
all. -/
theorem C9_blank_line_skipped (env : Env) (line : String)
    (h : pyStrip line = "") :
    process_line env line = [] := by
  simp [process_line, h]

/-- Witness for C9 on a whitespace-only input line. -/
theorem C9_witness :
    process_line ⟨HttpResult.transportError, HttpResult.transportError⟩ "  " = [] :=
  C9_blank_line_skipped ⟨HttpResult.transportError, HttpResult.transportError⟩
    "  " (by decide)

end RfidReader

namespace RfidReader

/-- C4: for every validate(uid) call where verify returns HTTP 200 with
success true and a present credential status other than assigned, the door
is engaged (HIGH) for exactly the configured unlock duration of 5 seconds
and then de-energized, and the granted-log record is spawned carrying the
guest id when guest data is present and null otherwise. -/
theorem C4_active_granted (env : Env) (uid : String) (body : VerifyBody)
    (st : String)
    (hv : env.verifyResp = HttpResult.ok 200 (some body))
    (hs : body.success = true)
    (hst : body.rfidStatus = some st)
    (hne : st ≠ "assigned") :
    validate_rfid env uid =
      verified_prints body ++ unlock_door ++
      [Event.logRecord LOG_GRANTED_URL
        (LogPayload.granted uid (body.guest.bind GuestInfo.id))] ∧
    door_engaged (validate_rfid env uid) = true ∧
    highTime (validate_rfid env uid) = UNLOCK_DURATION_SECONDS ∧
    pinAfter PinState.low (validate_rfid env uid) = PinState.low ∧
    Event.logRecord LOG_GRANTED_URL
      (LogPayload.granted uid (body.guest.bind GuestInfo.id)) ∈
      validate_rfid env uid := by
  have htr : validate_rfid env uid =
      verified_prints body ++ unlock_door ++
      [Event.logRecord LOG_GRANTED_URL
        (LogPayload.granted uid (body.guest.bind GuestInfo.id))] := by
    simp [validate_rfid, hv, hs, hst, hne, activate_rfid_if_assigned,
      verified_prints, log_access_attempt]
  refine ⟨htr, ?_, ?_, ?_, ?_⟩
  · rw [htr]
    simp [door_engaged, heldHighFor_append, heldHighFor, pinAfter,
      verified_prints, heldHighFor_unlock, pinAfter_unlock]
  · rw [htr]
    simp [highTime, highTimeFrom_append, highTimeFrom, pinAfter,
      verified_prints, highTimeFrom_unlock, pinAfter_unlock]
  · rw [htr]
    simp [pinAfter_append, pinAfter, verified_prints, pinAfter_unlock]
  · rw [htr]; simp

/-- Witness for C4: active credential, guest id 7, door engaged. -/
theorem C4_witness :
    door_engaged (validate_rfid ⟨HttpResult.ok 200 (some bodyActive),
      HttpResult.transportError⟩ "A1") = true ∧
    Event.logRecord LOG_GRANTED_URL (LogPayload.granted "A1" (some 7)) ∈
      validate_rfid ⟨HttpResult.ok 200 (some bodyActive),
        HttpResult.transportError⟩ "A1" :=
  ⟨(C4_active_granted _ "A1" bodyActive "active" rfl rfl rfl
      (by decide)).2.1,
   (C4_active_granted _ "A1" bodyActive "active" rfl rfl rfl
      (by decide)).2.2.2.2⟩

end RfidReader

namespace RfidReader

/-- C1: for every validate(uid) call where the verify response is HTTP 200
with success true and the credential status is the string assigned, the
activation POST is issued before any relay-pin write (hence before any
door engagement); and if the activation fails in any way (transport error,
non-200 status, unparseable body, or payload success false), the outcome
is Denied — no engagement, denial flash, denied-log record — and no
granted-log record is spawned. -/
theorem C1_assigned_requires_activation (env : Env) (uid : String)
    (body : VerifyBody)
    (hv : env.verifyResp = HttpResult.ok 200 (some body))
    (hs : body.success = true)
    (hst : body.rfidStatus = some "assigned") :
    (∃ p rest, validate_rfid env uid = p ++ Event.httpPost ACTIVATE_RFID_URL :: rest ∧
       p.all (fun e => !isActuation e) = true) ∧
    (activationFailed env.activateResp = true →
       door_engaged (validate_rfid env uid) = false ∧
       Event.logRecord LOG_DENIED_URL (LogPayload.denied uid) ∈ validate_rfid env uid ∧
       flash_relay <:+: validate_rfid env uid ∧
       (∀ pl, Event.logRecord LOG_GRANTED_URL pl ∉ validate_rfid env uid)) := by
  constructor
  · -- the activation POST precedes every pin write
    cases ha : env.activateResp with
    | transportError =>
        exact ⟨verified_prints body ++
            [Event.print "[INFO] RFID status is assigned. Attempting to activate..."],
          Event.print "[ERROR] Cannot connect to backend to activate RFID" ::
            deny_access uid ("RFID " ++ uid ++ " could not be activated."),
          by simp [validate_rfid, hv, hs, hst, ha, activate_rfid_if_assigned,
            verified_prints],
          by simp [verified_prints, isActuation]⟩
    | ok status body2 =>
        by_cases h2 : status = 200
        · subst h2
          cases body2 with
          | none =>
              exact ⟨verified_prints body ++
                  [Event.print "[INFO] RFID status is assigned. Attempting to activate..."],
                Event.print "[ERROR] Cannot connect to backend to activate RFID" ::
                  deny_access uid ("RFID " ++ uid ++ " could not be activated."),
                by simp [validate_rfid, hv, hs, hst, ha, activate_rfid_if_assigned,
                  verified_prints],
                by simp [verified_prints, isActuation]⟩
          | some d =>
              cases hd : d.success with
              | true =>
                  exact ⟨verified_prints body ++
                      [Event.print "[INFO] RFID status is assigned. Attempting to activate..."],
                    Event.print "[INFO] RFID successfully activated" ::
                      (unlock_door ++
                       [Event.logRecord LOG_GRANTED_URL
                         (LogPayload.granted uid (body.guest.bind GuestInfo.id))]),
                    by simp [validate_rfid, hv, hs, hst, ha, hd,
                      activate_rfid_if_assigned, verified_prints, log_access_attempt],
                    by simp [verified_prints, isActuation]⟩
              | false =>
                  exact ⟨verified_prints body ++
                      [Event.print "[INFO] RFID status is assigned. Attempting to activate..."],
                    Event.print "[ERROR] Could not activate RFID" ::
                      deny_access uid ("RFID " ++ uid ++ " could not be activated."),
                    by simp [validate_rfid, hv, hs, hst, ha, hd,
                      activate_rfid_if_assigned, verified_prints],
                    by simp [verified_prints, isActuation]⟩
        · exact ⟨verified_prints body ++
              [Event.print "[INFO] RFID status is assigned. Attempting to activate..."],
            Event.print "[ERROR] Unexpected HTTP activating RFID" ::
              deny_access uid ("RFID " ++ uid ++ " could not be activated."),
            by simp [validate_rfid, hv, hs, hst, ha, h2,
              activate_rfid_if_assigned, verified_prints],
            by simp [verified_prints, isActuation]⟩
  · -- failed activation is denied
    intro hfail
    have h1 : (activate_rfid_if_assigned env.activateResp uid (some "assigned")).1 = none :=
      activate_fails_none env.activateResp uid hfail
    have hq : (activate_rfid_if_assigned env.activateResp uid (some "assigned")).2.all
        isInert = true :=
      activate_trace_inert env.activateResp uid (some "assigned")
    obtain ⟨hqp, hqt, hqh, hqm⟩ := inert_trace _ hq
    have htr : validate_rfid env uid =
        (verified_prints body ++
          (activate_rfid_if_assigned env.activateResp uid (some "assigned")).2) ++
        deny_access uid ("RFID " ++ uid ++ " could not be activated.") := by
      simp [validate_rfid, hv, hs, hst, h1, verified_prints]
    obtain ⟨d1, d2, d3⟩ := deny_shape
      (verified_prints body ++
        (activate_rfid_if_assigned env.activateResp uid (some "assigned")).2)
      uid ("RFID " ++ uid ++ " could not be activated.")
      (by simp [pinAfter_append, verified_prints, pinAfter, hqp])
      (by simp [heldHighFor_append, heldHighFor, verified_prints, pinAfter, hqh, hqp])
    refine ⟨by rw [htr]; exact d1, by rw [htr]; exact d2, by rw [htr]; exact d3, ?_⟩
    intro pl
    rw [htr]
    simp [verified_prints, grant_not_mem_deny, hqm]

/-- Witness for C1: an assigned credential whose activation call fails at
the transport level is denied rather than granted entry. -/
theorem C1_witness :
    door_engaged (validate_rfid ⟨HttpResult.ok 200 (some bodyAssigned),
      HttpResult.transportError⟩ "B2") = false ∧
    Event.logRecord LOG_DENIED_URL (LogPayload.denied "B2") ∈
      validate_rfid ⟨HttpResult.ok 200 (some bodyAssigned),
        HttpResult.transportError⟩ "B2" :=
  ⟨((C1_assigned_requires_activation ⟨HttpResult.ok 200 (some bodyAssigned),
      HttpResult.transportError⟩ "B2" bodyAssigned rfl rfl rfl).2 rfl).1,
   ((C1_assigned_requires_activation ⟨HttpResult.ok 200 (some bodyAssigned),
      HttpResult.transportError⟩ "B2" bodyAssigned rfl rfl rfl).2 rfl).2.1⟩

end RfidReader

namespace RfidReader

/-- C10 (counterexample): at a concrete verify response, HTTP 200 with
success true but no rfid status field at all, the door is NOT unlocked —
contrary to the claim — because `activate_rfid_if_assigned` passes the
absent status (None) through unchanged and None is exactly the error
sentinel `validate_rfid` checks for: the outcome is a denial. -/
theorem C10_counterexample :
    door_engaged (validate_rfid ⟨HttpResult.ok 200 (some bodyNoStatus),
      HttpResult.ok 200 (some abActive)⟩ "B9") = false ∧
    Event.logRecord LOG_DENIED_URL (LogPayload.denied "B9") ∈
      validate_rfid ⟨HttpResult.ok 200 (some bodyNoStatus),
        HttpResult.ok 200 (some abActive)⟩ "B9" := by
  have htr : validate_rfid ⟨HttpResult.ok 200 (some bodyNoStatus),
      HttpResult.ok 200 (some abActive)⟩ "B9" =
      verified_prints bodyNoStatus ++
      deny_access "B9" ("RFID " ++ "B9" ++ " could not be activated.") := by
    simp [validate_rfid, activate_rfid_if_assigned, verified_prints, bodyNoStatus]
  obtain ⟨d1, d2, d3⟩ := deny_shape (verified_prints bodyNoStatus) "B9"
    ("RFID " ++ "B9" ++ " could not be activated.")
    (by simp [verified_prints, pinAfter]) (by simp [verified_prints, heldHighFor])
  exact ⟨by rw [htr]; exact d1, by rw [htr]; exact d2⟩

/-- C10 (amended): a verify response with success true whose rfid status
field is entirely absent makes no activation call but leads to a DENIAL,
not an unlock — the absent status is returned unchanged by
`activate_rfid_if_assigned` and coincides with its error sentinel; whereas
an activation response with success true but a missing status field
defaults the status to the string unknown and still leads to an unlock
with a granted-log record. -/
theorem C10_missing_status_fields :
    (∀ (env : Env) (uid : String) (body : VerifyBody),
      env.verifyResp = HttpResult.ok 200 (some body) →
      body.success = true →
      body.rfidStatus = none →
      validate_rfid env uid =
        verified_prints body ++
        deny_access uid ("RFID " ++ uid ++ " could not be activated.") ∧
      Event.httpPost ACTIVATE_RFID_URL ∉ validate_rfid env uid ∧
      door_engaged (validate_rfid env uid) = false ∧
      Event.logRecord LOG_DENIED_URL (LogPayload.denied uid) ∈
        validate_rfid env uid) ∧
    (∀ (env : Env) (uid : String) (body : VerifyBody) (ab : ActivateBody),
      env.verifyResp = HttpResult.ok 200 (some body) →
      body.success = true →
      body.rfidStatus = some "assigned" →
      env.activateResp = HttpResult.ok 200 (some ab) →
      ab.success = true →
      ab.dataStatus = none →
      door_engaged (validate_rfid env uid) = true ∧
      Event.logRecord LOG_GRANTED_URL
        (LogPayload.granted uid (body.guest.bind GuestInfo.id)) ∈
        validate_rfid env uid) := by
  constructor
  · intro env uid body hv hs hstn
    have htr : validate_rfid env uid =
        verified_prints body ++
        deny_access uid ("RFID " ++ uid ++ " could not be activated.") := by
      simp [validate_rfid, hv, hs, hstn, activate_rfid_if_assigned, verified_prints]
    obtain ⟨d1, d2, d3⟩ := deny_shape (verified_prints body) uid
      ("RFID " ++ uid ++ " could not be activated.")
      (by simp [verified_prints, pinAfter]) (by simp [verified_prints, heldHighFor])
    refine ⟨htr, ?_, by rw [htr]; exact d1, by rw [htr]; exact d2⟩
    rw [htr]
    simp [verified_prints, httpPost_not_mem_deny, Ne.symm verify_ne_activate]
  · intro env uid body ab hv hs hst ha hab habs
    have htr : validate_rfid env uid =
        (verified_prints body ++
          [Event.print "[INFO] RFID status is assigned. Attempting to activate...",
           Event.httpPost ACTIVATE_RFID_URL,
           Event.print "[INFO] RFID successfully activated"]) ++
        (unlock_door ++
         [Event.logRecord LOG_GRANTED_URL
           (LogPayload.granted uid (body.guest.bind GuestInfo.id))]) := by
      simp [validate_rfid, hv, hs, hst, ha, hab, habs,
        activate_rfid_if_assigned, verified_prints, log_access_attempt]
    constructor
    · rw [htr]
      simp [door_engaged, heldHighFor_append, heldHighFor, pinAfter,
        verified_prints, heldHighFor_unlock, pinAfter_unlock]
    · rw [htr]; simp

/-- Witness for C10 (amended): absent verify status denies; absent
activate status defaults to unknown and unlocks. -/
theorem C10_witness :
    door_engaged (validate_rfid ⟨HttpResult.ok 200 (some bodyNoStatus),
      HttpResult.transportError⟩ "N1") = false ∧
    door_engaged (validate_rfid ⟨HttpResult.ok 200 (some bodyAssigned),
      HttpResult.ok 200 (some abNoStatus)⟩ "B2") = true :=
  ⟨(C10_missing_status_fields.1 ⟨HttpResult.ok 200 (some bodyNoStatus),
      HttpResult.transportError⟩ "N1" bodyNoStatus rfl rfl rfl).2.2.1,
   (C10_missing_status_fields.2 ⟨HttpResult.ok 200 (some bodyAssigned),
      HttpResult.ok 200 (some abNoStatus)⟩ "B2" bodyAssigned abNoStatus
      rfl rfl rfl rfl rfl rfl).1⟩

end RfidReader

namespace RfidReader

/-- Master actuator invariant: every `validate_rfid` call, whatever the
backend answers, returns the relay pin to LOW and holds it HIGH for at
most the configured unlock duration. -/
theorem validate_pin_time (env : Env) (uid : String) :
    pinAfter PinState.low (validate_rfid env uid) = PinState.low ∧
    highTime (validate_rfid env uid) ≤ UNLOCK_DURATION_SECONDS := by
  obtain ⟨vresp, aresp⟩ := env
  cases vresp with
  | transportError =>
      constructor
      · simp [validate_rfid, pinAfter]
      · simp [validate_rfid, highTime, highTimeFrom]
        norm_num [UNLOCK_DURATION_SECONDS]
  | ok status body =>
      by_cases h200 : status = 200
      · subst h200
        cases body with
        | none =>
            have htr : validate_rfid ⟨HttpResult.ok 200 none, aresp⟩ uid =
                [Event.print "[INFO] Sending verification request",
                 Event.httpPost VERIFY_RFID_URL,
                 Event.print "[ERROR] JSON parse error"] ++
                deny_access uid "Backend JSON parse error." := by
              simp [validate_rfid]
            rw [htr]
            constructor
            · simp [pinAfter_append, pinAfter, pinAfter_deny]
            · simp [highTime, highTimeFrom_append, highTimeFrom, pinAfter,
                highTimeFrom_deny]
              norm_num [UNLOCK_DURATION_SECONDS]
        | some data =>
            cases hs : data.success with
            | false =>
                have htr : validate_rfid ⟨HttpResult.ok 200 (some data), aresp⟩ uid =
                    [Event.print "[INFO] Sending verification request",
                     Event.httpPost VERIFY_RFID_URL,
                     Event.print "[DEBUG] Full backend response"] ++
                    deny_access uid (data.message.getD "Unknown backend error.") := by
                  simp [validate_rfid, hs]
                rw [htr]
                constructor
                · simp [pinAfter_append, pinAfter, pinAfter_deny]
                · simp [highTime, highTimeFrom_append, highTimeFrom, pinAfter,
                    highTimeFrom_deny]
                  norm_num [UNLOCK_DURATION_SECONDS]
            | true =>
                have hq := activate_trace_inert aresp uid data.rfidStatus
                obtain ⟨hqp, hqt, hqh, hqm⟩ := inert_trace _ hq
                cases hu : (activate_rfid_if_assigned aresp uid data.rfidStatus).1 with
                | none =>
                    have htr : validate_rfid ⟨HttpResult.ok 200 (some data), aresp⟩ uid =
                        (verified_prints data ++
                          (activate_rfid_if_assigned aresp uid data.rfidStatus).2) ++
                        deny_access uid ("RFID " ++ uid ++ " could not be activated.") := by
                      simp [validate_rfid, hs, hu, verified_prints]
                    rw [htr]
                    constructor
                    · simp [pinAfter_append, verified_prints, pinAfter, hqp, pinAfter_deny]
                    · simp [highTime, highTimeFrom_append, verified_prints, highTimeFrom,
                        pinAfter, hqp, hqt, highTimeFrom_deny]
                      norm_num [UNLOCK_DURATION_SECONDS]
                | some st2 =>
                    have htr : validate_rfid ⟨HttpResult.ok 200 (some data), aresp⟩ uid =
                        (verified_prints data ++
                          (activate_rfid_if_assigned aresp uid data.rfidStatus).2) ++
                        (unlock_door ++
                         [Event.logRecord LOG_GRANTED_URL
                           (LogPayload.granted uid (data.guest.bind GuestInfo.id))]) := by
                      simp [validate_rfid, hs, hu, verified_prints, log_access_attempt]
                    rw [htr]
                    constructor
                    · simp [pinAfter_append, verified_prints, pinAfter, hqp, pinAfter_unlock]
                    · simp [highTime, highTimeFrom_append, verified_prints, highTimeFrom,
                        pinAfter, hqp, hqt, pinAfter_unlock, highTimeFrom_unlock]
      · by_cases h34 : status = 403 ∨ status = 404
        · have htr : validate_rfid ⟨HttpResult.ok status body, aresp⟩ uid =
              [Event.print "[INFO] Sending verification request",
               Event.httpPost VERIFY_RFID_URL] ++
              deny_access uid (verify_deny_reason body) := by
            rcases h34 with rfl | rfl <;> cases body <;>
              simp [validate_rfid, verify_deny_reason]
          rw [htr]
          constructor
          · simp [pinAfter_append, pinAfter, pinAfter_deny]
          · simp [highTime, highTimeFrom_append, highTimeFrom, pinAfter,
              highTimeFrom_deny]
            norm_num [UNLOCK_DURATION_SECONDS]
        · have htr : validate_rfid ⟨HttpResult.ok status body, aresp⟩ uid =
              [Event.print "[INFO] Sending verification request",
               Event.httpPost VERIFY_RFID_URL,
               Event.print "[ERROR] Unexpected backend response"] ++
              deny_access uid ("Unexpected status " ++ toString status) := by
            simp [validate_rfid, h200, h34]
          rw [htr]
          constructor
          · simp [pinAfter_append, pinAfter, pinAfter_deny]
          · simp [highTime, highTimeFrom_append, highTimeFrom, pinAfter,
              highTimeFrom_deny]
            norm_num [UNLOCK_DURATION_SECONDS]

/-- The pin is LOW after any prefix of iterations of the entry loop, so it
is LOW immediately before (and after) every `validate_rfid` call. -/
theorem loop_prefix_pin (pre : List (String × Env)) :
    pinAfter PinState.low ((pre.map fun p => process_line p.2 p.1).flatten) =
      PinState.low := by
  induction pre with
  | nil => rfl
  | cons hd tl ih =>
      have h1 : pinAfter PinState.low (process_line hd.2 hd.1) = PinState.low := by
        by_cases h : pyStrip hd.1 = ""
        · simp [process_line, h, pinAfter]
        · have h2 : process_line hd.2 hd.1 =
              Event.print "[SCAN] RFID Scanned" :: validate_rfid hd.2 (pyStrip hd.1) := by
            simp [process_line, h]
          rw [h2]
          exact (validate_pin_time hd.2 (pyStrip hd.1)).1
      simp only [List.map_cons, List.flatten_cons, pinAfter_append, h1, ih]

/-- C5: the actuator output is LOW immediately before and immediately
after every validate call regardless of outcome — the pin starts LOW at
setup, every loop-prefix trace ends LOW, and every validate trace maps LOW
to LOW — and it is HIGH for at most the configured unlock duration per
call; both the unlock block and the denial flash end de-energized. -/
theorem C5_actuator_resting_state :
    (∀ (env : Env) (uid : String),
      pinAfter PinState.low (validate_rfid env uid) = PinState.low) ∧
    (∀ (env : Env) (uid : String),
      highTime (validate_rfid env uid) ≤ UNLOCK_DURATION_SECONDS) ∧
    (∀ s, pinAfter s unlock_door = PinState.low) ∧
    (∀ s, pinAfter s flash_relay = PinState.low) ∧
    (∀ pre : List (String × Env),
      pinAfter PinState.low ((pre.map fun p => process_line p.2 p.1).flatten) =
        PinState.low) :=
  ⟨fun env uid => (validate_pin_time env uid).1,
   fun env uid => (validate_pin_time env uid).2,
   pinAfter_unlock, pinAfter_flash, loop_prefix_pin⟩

end RfidReader
